import Mathlib

/-!
Shallow embedding of the Environmental Risk Project's feature-engineering and
prediction pipeline (TypeScript sources under `src/`), together with theorems
settling the frozen claims about it.

Conventions of the embedding:
* JS `number` values are modelled as `ℚ`; `Math.sqrt` (used only by the
  volatility and extreme-value features) is not rational, so every definition
  that needs it takes an abstract `sqrtQ : ℚ → ℚ` parameter.  No claim depends
  on the value of a square root.
* The JS expression `0/0` evaluates to `NaN`; the one place where the source
  can produce it (the per-signal quality ratio `cleanData.length /
  originalCount` in `EnhancedDataPreprocessor.cleanAndValidateData`) is
  modelled with `Option ℚ`, where `none` stands for `NaN`, and `jsAdd`
  propagates it the way JS addition propagates `NaN`.
* Raw samples are modelled by the fields the cleaning code inspects:
  JS truthiness of `item.timestamp` (`tsNonempty`), whether
  `new Date(item.timestamp)` parses (`tsParses`), the parsed year (`tsYear`),
  the coordinates, and the signal payload (`value`).  A JS number is falsy
  exactly when it is `0`, which is what `!item.latitude` tests.
-/

namespace EnvRisk

/-- JS `Math.max(0, Math.min(1, x))`, the clamp used by both normalizers. -/
def clamp01 (x : ℚ) : ℚ := max 0 (min 1 x)

/-- JS addition with `NaN` propagation (`none` models `NaN`). -/
def jsAdd : Option ℚ → Option ℚ → Option ℚ
  | some a, some b => some (a + b)
  | _, _ => none

/-- A raw per-signal sample, reduced to the fields the cleaning code reads. -/
structure RawSample where
  tsNonempty : Bool
  tsParses : Bool
  tsYear : Int
  latitude : ℚ
  longitude : ℚ
  value : ℚ
deriving DecidableEq

/-- The filter body of `DataPreprocessor.cleanData` (src/unnamed/part_005,
lines 44-65): `!item.timestamp || !item.latitude || !item.longitude` rejects,
then the coordinate range checks, then the `Date` parse check.  JS falsiness
of a number is equality with `0`. -/
def basicSampleValid (s : RawSample) : Bool :=
  s.tsNonempty && !(s.latitude == 0) && !(s.longitude == 0) &&
  decide (-90 ≤ s.latitude) && decide (s.latitude ≤ 90) &&
  decide (-180 ≤ s.longitude) && decide (s.longitude ≤ 180) &&
  s.tsParses

/-- `DataPreprocessor.cleanData` (basic variant). -/
def cleanData (xs : List RawSample) : List RawSample :=
  xs.filter basicSampleValid

/-- The filter body of `EnhancedDataPreprocessor.cleanAndValidateData`: the
basic checks plus `Math.abs(now.getFullYear() - dataDate.getFullYear()) > 10`
rejecting. -/
def enhancedSampleValid (nowYear : Int) (s : RawSample) : Bool :=
  basicSampleValid s && decide ((nowYear - s.tsYear).natAbs ≤ 10)

/-- Result triple of `EnhancedDataPreprocessor.cleanAndValidateData`.
`quality = cleanData.length / originalCount` is `NaN` (`none`) when the
input array is empty, since JS `0/0 = NaN`. -/
structure CleanResult where
  cleanSamples : List RawSample
  quality : Option ℚ
  completeness : ℚ

/-- `EnhancedDataPreprocessor.cleanAndValidateData`
(src/src/services/enhancedDataPreprocessor.ts, lines 51-90). -/
def cleanAndValidateData (nowYear : Int) (xs : List RawSample) : CleanResult :=
  let cd := xs.filter (enhancedSampleValid nowYear)
  { cleanSamples := cd
    quality := if xs.length = 0 then none else some ((cd.length : ℚ) / (xs.length : ℚ))
    completeness := min 1 ((cd.length : ℚ) / 50) }

/-- `FeatureEngineer.calculateMean` (enhancedMLModels.ts, lines 89-91). -/
def calculateMean (values : List ℚ) : ℚ :=
  if 0 < values.length then values.sum / (values.length : ℚ) else 0

/-- `FeatureEngineer.calculateTrend`: least-squares slope over indices. -/
def calculateTrend (values : List ℚ) : ℚ :=
  if values.length < 2 then 0
  else
    let n : ℚ := (values.length : ℚ)
    let sumX : ℚ := ((List.range values.length).map (fun i => (i : ℚ))).sum
    let sumY : ℚ := values.sum
    let sumXY : ℚ := (values.enum.map (fun p => (p.1 : ℚ) * p.2)).sum
    let sumXX : ℚ := ((List.range values.length).map (fun i => (i : ℚ) * (i : ℚ))).sum
    (n * sumXY - sumX * sumY) / (n * sumXX - sumX * sumX)

/-- `FeatureEngineer.calculateVolatility`: population standard deviation,
with `Math.sqrt` abstracted as `sqrtQ`. -/
def calculateVolatility (sqrtQ : ℚ → ℚ) (values : List ℚ) : ℚ :=
  if values.length < 2 then 0
  else
    let m := calculateMean values
    sqrtQ ((values.map (fun v => (v - m) * (v - m))).sum / (values.length : ℚ))

/-- `FeatureEngineer.calculateSeasonality`: spread of the 12 cyclic bucket
means (0 when fewer than 12 samples). -/
def calculateSeasonality (values : List ℚ) : ℚ :=
  if values.length < 12 then 0
  else
    let monthly := (List.range 12).map
      (fun i => calculateMean ((values.enum.filter (fun p => p.1 % 12 == i)).map (fun p => p.2)))
    (monthly.foldl max (monthly.headD 0)) - (monthly.foldl min (monthly.headD 0))

/-- `FeatureEngineer.calculateExtremeValues`: fraction of samples above
mean + 2·std. -/
def calculateExtremeValues (sqrtQ : ℚ → ℚ) (values : List ℚ) : ℚ :=
  if values.length = 0 then 0
  else
    let m := calculateMean values
    let s := calculateVolatility sqrtQ values
    ((values.filter (fun v => decide (m + 2 * s < v))).length : ℚ) / (values.length : ℚ)

/-- `FeatureEngineer.createTemporalFeatures`: the 25-slot feature vector, in
source order (5 means, 5 trends, 5 volatilities, 4 interactions,
3 seasonalities, 3 extreme-value ratios). -/
def createTemporalFeatures (sqrtQ : ℚ → ℚ) (sm t fi sl gm : List ℚ) : List ℚ :=
  [calculateMean sm, calculateMean t, calculateMean fi, calculateMean sl, calculateMean gm,
   calculateTrend sm, calculateTrend t, calculateTrend fi, calculateTrend sl, calculateTrend gm,
   calculateVolatility sqrtQ sm, calculateVolatility sqrtQ t, calculateVolatility sqrtQ fi,
   calculateVolatility sqrtQ sl, calculateVolatility sqrtQ gm,
   calculateMean sm * calculateMean t, calculateMean t * calculateMean fi,
   calculateMean sm * calculateMean sl, calculateMean gm * calculateMean sl,
   calculateSeasonality sm, calculateSeasonality t, calculateSeasonality fi,
   calculateExtremeValues sqrtQ sm, calculateExtremeValues sqrtQ t, calculateExtremeValues sqrtQ fi]

/-- `EnhancedProcessedFeatures` record.  `quality` is `Option ℚ` because the
per-signal ratios feeding it can be `NaN`. -/
structure EnhancedProcessedFeatures where
  basicFeatures : List ℚ
  temporalFeatures : List ℚ
  volatilityFeatures : List ℚ
  interactionFeatures : List ℚ
  seasonalFeatures : List ℚ
  extremeFeatures : List ℚ
  allFeatures : List ℚ
  quality : Option ℚ
  completeness : ℚ
  dataRichness : ℚ

/-- `EnhancedDataPreprocessor.aggregateDataWithTimeSeries`
(enhancedDataPreprocessor.ts, lines 93-157). -/
def aggregateDataWithTimeSeries (sqrtQ : ℚ → ℚ) (nowYear : Int)
    (soilMoisture temperature fireIndex seaLevel glacierMelting : List RawSample) :
    EnhancedProcessedFeatures :=
  let csm := cleanAndValidateData nowYear soilMoisture
  let ct := cleanAndValidateData nowYear temperature
  let cfi := cleanAndValidateData nowYear fireIndex
  let csl := cleanAndValidateData nowYear seaLevel
  let cgm := cleanAndValidateData nowYear glacierMelting
  let smTS := csm.cleanSamples.map (fun s => s.value)
  let tTS := ct.cleanSamples.map (fun s => s.value)
  let fiTS := cfi.cleanSamples.map (fun s => s.value)
  let slTS := csl.cleanSamples.map (fun s => s.value)
  let gmTS := cgm.cleanSamples.map (fun s => s.value)
  let allFeatures := createTemporalFeatures sqrtQ smTS tTS fiTS slTS gmTS
  { basicFeatures := allFeatures.take 5
    temporalFeatures := (allFeatures.drop 5).take 5
    volatilityFeatures := (allFeatures.drop 10).take 5
    interactionFeatures := (allFeatures.drop 15).take 4
    seasonalFeatures := (allFeatures.drop 19).take 3
    extremeFeatures := (allFeatures.drop 22).take 3
    allFeatures := allFeatures
    quality := (jsAdd (jsAdd (jsAdd (jsAdd (jsAdd (some 0) csm.quality) ct.quality)
        cfi.quality) csl.quality) cgm.quality).map (fun q => q / 5)
    completeness := (csm.completeness + ct.completeness + cfi.completeness +
        csl.completeness + cgm.completeness) / 5
    dataRichness := min 1 (((smTS.length + tTS.length + fiTS.length + slTS.length +
        gmTS.length : ℕ) : ℚ) / 250) }

/-- `EnhancedDataPreprocessor.isDesertRegion`: union of five bounding boxes. -/
def isDesertRegion (lat lon : ℚ) : Prop :=
  (15 ≤ lat ∧ lat ≤ 30 ∧ -15 ≤ lon ∧ lon ≤ 40) ∨
  (40 ≤ lat ∧ lat ≤ 50 ∧ 100 ≤ lon ∧ lon ≤ 120) ∨
  (-30 ≤ lat ∧ lat ≤ -20 ∧ -80 ≤ lon ∧ lon ≤ -70) ∨
  (-30 ≤ lat ∧ lat ≤ -20 ∧ 15 ≤ lon ∧ lon ≤ 25) ∨
  (-30 ≤ lat ∧ lat ≤ -20 ∧ 120 ≤ lon ∧ lon ≤ 140)

instance (lat lon : ℚ) : Decidable (isDesertRegion lat lon) := by
  unfold isDesertRegion; infer_instance

/-- `EnhancedDataPreprocessor.isPolarRegion`. -/
def isPolarRegion (lat _lon : ℚ) : Prop :=
  lat > 133 / 2 ∨ lat < -(133 / 2)

instance (lat lon : ℚ) : Decidable (isPolarRegion lat lon) := by
  unfold isPolarRegion; infer_instance

/-- `EnhancedDataPreprocessor.isCoastalRegion`: union of five bounding boxes. -/
def isCoastalRegion (lat lon : ℚ) : Prop :=
  (-130 ≤ lon ∧ lon ≤ -120 ∧ 30 ≤ lat ∧ lat ≤ 60) ∨
  (-80 ≤ lon ∧ lon ≤ -70 ∧ 25 ≤ lat ∧ lat ≤ 50) ∨
  (-10 ≤ lon ∧ lon ≤ 20 ∧ 35 ≤ lat ∧ lat ≤ 70) ∨
  (120 ≤ lon ∧ lon ≤ 140 ∧ 20 ≤ lat ∧ lat ≤ 50) ∨
  (110 ≤ lon ∧ lon ≤ 155 ∧ -40 ≤ lat ∧ lat ≤ -10)

instance (lat lon : ℚ) : Decidable (isCoastalRegion lat lon) := by
  unfold isCoastalRegion; infer_instance

/-- `EnhancedDataPreprocessor.isTropicalRegion`. -/
def isTropicalRegion (lat _lon : ℚ) : Prop :=
  -(47 / 2) ≤ lat ∧ lat ≤ 47 / 2

instance (lat lon : ℚ) : Decidable (isTropicalRegion lat lon) := by
  unfold isTropicalRegion; infer_instance

/-- `EnhancedDataPreprocessor.isMountainousRegion`: union of four ranges. -/
def isMountainousRegion (lat lon : ℚ) : Prop :=
  (25 ≤ lat ∧ lat ≤ 35 ∧ 70 ≤ lon ∧ lon ≤ 100) ∨
  (-20 ≤ lat ∧ lat ≤ 10 ∧ -80 ≤ lon ∧ lon ≤ -70) ∨
  (35 ≤ lat ∧ lat ≤ 60 ∧ -120 ≤ lon ∧ lon ≤ -105) ∨
  (43 ≤ lat ∧ lat ≤ 48 ∧ 5 ≤ lon ∧ lon ≤ 15)

instance (lat lon : ℚ) : Decidable (isMountainousRegion lat lon) := by
  unfold isMountainousRegion; infer_instance

/-!
The enhanced geographic adjustment mutates `adjustedFeatures.basicFeatures`
in place, and because `{ ...features }` is a shallow copy that array is the
same object as `features.basicFeatures`: each `if` block therefore reads the
values left by the previous blocks.  Within one block every slot is written
at most once, so a block may read all its inputs from the list it receives.
-/

/-- The `isDesert` block of `adjustForGeographicContextEnhanced`
(enhancedDataPreprocessor.ts, lines 269-275). -/
def desertAdjust (b : List ℚ) : List ℚ :=
  ((((b.set 0 (min (b.getD 0 0) (15 / 100))).set 1 (max (b.getD 1 0) (25 / 100))).set 2
      (max (b.getD 2 0) (6 / 10))).set 3 0).set 4 0

/-- The `isPolar` block (lines 277-283). -/
def polarAdjust (b : List ℚ) : List ℚ :=
  ((((b.set 0 (min (b.getD 0 0) (4 / 10))).set 1 (min (b.getD 1 0) (15 / 100))).set 2
      (min (b.getD 2 0) (3 / 10))).set 3 0).set 4 (max (b.getD 4 0) (5 / 100))

/-- The `isCoastal` block (lines 285-287). -/
def coastalAdjust (b : List ℚ) : List ℚ :=
  b.set 3 (max (b.getD 3 0) (5 / 100))

/-- The `isTropical` block (lines 289-293). -/
def tropicalAdjust (b : List ℚ) : List ℚ :=
  ((b.set 0 (max (b.getD 0 0) (6 / 10))).set 1 (max (b.getD 1 0) (2 / 10))).set 2
    (min (b.getD 2 0) (6 / 10))

/-- The `isMountainous` block (lines 295-298). -/
def mountainousAdjust (b : List ℚ) : List ℚ :=
  (b.set 1 (min (b.getD 1 0) (3 / 10))).set 4 (max (b.getD 4 0) (2 / 100))

/-- The guarded desert block: the state of the array after the first `if`. -/
def desertApply (b : List ℚ) (lat lon : ℚ) : List ℚ :=
  if isDesertRegion lat lon then desertAdjust b else b

/-- The guarded polar block. -/
def polarApply (b : List ℚ) (lat lon : ℚ) : List ℚ :=
  if isPolarRegion lat lon then polarAdjust b else b

/-- The guarded coastal block. -/
def coastalApply (b : List ℚ) (lat lon : ℚ) : List ℚ :=
  if isCoastalRegion lat lon then coastalAdjust b else b

/-- The guarded tropical block. -/
def tropicalApply (b : List ℚ) (lat lon : ℚ) : List ℚ :=
  if isTropicalRegion lat lon then tropicalAdjust b else b

/-- The guarded mountainous block. -/
def mountainousApply (b : List ℚ) (lat lon : ℚ) : List ℚ :=
  if isMountainousRegion lat lon then mountainousAdjust b else b

/-- Sequential composition of the five region blocks, in source order
(desert, polar, coastal, tropical, mountainous). -/
def adjustBasicFeaturesEnhanced (b : List ℚ) (lat lon : ℚ) : List ℚ :=
  mountainousApply
    (tropicalApply (coastalApply (polarApply (desertApply b lat lon) lat lon) lat lon)
      lat lon) lat lon

/-- `EnhancedDataPreprocessor.adjustForGeographicContextEnhanced`
(lines 255-311): adjusts the basic slots and rebuilds `allFeatures` from the
(unchanged) remaining groups. -/
def adjustForGeographicContextEnhanced (f : EnhancedProcessedFeatures) (lat lon : ℚ) :
    EnhancedProcessedFeatures :=
  let b := adjustBasicFeaturesEnhanced f.basicFeatures lat lon
  { f with
    basicFeatures := b
    allFeatures := b ++ f.temporalFeatures ++ f.volatilityFeatures ++
      f.interactionFeatures ++ f.seasonalFeatures ++ f.extremeFeatures }

/-- Min-max rescaling of one slot: `(x - min) / (max - min)` clamped. -/
def normalizeRange (r : ℚ × ℚ) (x : ℚ) : ℚ := clamp01 ((x - r.1) / (r.2 - r.1))

/-- Normalization ranges of the five basic slots (both pipelines). -/
def basicRanges : List (ℚ × ℚ) := [(0, 100), (-50, 60), (0, 100), (0, 1), (0, 20)]

/-- Normalization ranges of the five trend slots. -/
def trendRanges : List (ℚ × ℚ) := [(-10, 10), (-5, 5), (-20, 20), (-1/10, 1/10), (-2, 2)]

/-- Normalization ranges of the five volatility slots. -/
def volatilityRanges : List (ℚ × ℚ) := [(0, 30), (0, 15), (0, 25), (0, 1/5), (0, 5)]

/-- Normalization ranges of the four interaction slots. -/
def interactionRanges : List (ℚ × ℚ) := [(0, 6000), (0, 6000), (0, 100), (0, 20)]

/-- Normalization ranges of the three seasonality slots. -/
def seasonalRanges : List (ℚ × ℚ) := [(0, 50), (0, 30), (0, 40)]

/-- Normalization ranges of the three extreme-value slots. -/
def extremeRanges : List (ℚ × ℚ) := [(0, 1), (0, 1), (0, 1)]

/-- One group of `normalizeFeaturesEnhanced`: each feature is rescaled with
the range of its (positionally matched) name; surplus features without a
range are skipped by the source's `if (range)` guard, which `zip` mirrors. -/
def normalizeGroup (feats : List ℚ) (ranges : List (ℚ × ℚ)) : List ℚ :=
  (feats.zip ranges).map (fun p => normalizeRange p.2 p.1)

/-- `EnhancedNormalizedData` record (fields the claims use). -/
structure EnhancedNormalizedData where
  features : List ℚ
  quality : Option ℚ
  completeness : ℚ
  dataRichness : ℚ

/-- `EnhancedDataPreprocessor.normalizeFeaturesEnhanced` (lines 160-252). -/
def normalizeFeaturesEnhanced (f : EnhancedProcessedFeatures) : EnhancedNormalizedData :=
  { features := normalizeGroup f.basicFeatures basicRanges ++
      normalizeGroup f.temporalFeatures trendRanges ++
      normalizeGroup f.volatilityFeatures volatilityRanges ++
      normalizeGroup f.interactionFeatures interactionRanges ++
      normalizeGroup f.seasonalFeatures seasonalRanges ++
      normalizeGroup f.extremeFeatures extremeRanges
    quality := f.quality
    completeness := f.completeness
    dataRichness := f.dataRichness }

/-- `EnhancedDataPreprocessor.processDataForEnhancedML` (lines 352-404):
aggregate, geo-adjust, normalize. -/
def processDataForEnhancedML (sqrtQ : ℚ → ℚ) (nowYear : Int)
    (soilMoisture temperature fireIndex seaLevel glacierMelting : List RawSample)
    (lat lon : ℚ) : EnhancedNormalizedData :=
  normalizeFeaturesEnhanced
    (adjustForGeographicContextEnhanced
      (aggregateDataWithTimeSeries sqrtQ nowYear soilMoisture temperature fireIndex
        seaLevel glacierMelting) lat lon)

/-- `DataPreprocessor.calculateRobustAverage` (part_005, lines 134-162):
IQR-trimmed mean with index-based quartiles and a fallback to the plain mean.
`Math.floor(n * 0.25)` is `n / 4` and `Math.floor(n * 0.75)` is `3 * n / 4`
in natural-number division. -/
def calculateRobustAverage (values : List ℚ) : ℚ :=
  if values.length = 0 then 0
  else
    let sorted := values.mergeSort (fun a b => decide (a ≤ b))
    let n := sorted.length
    let q1 := sorted.getD (n / 4) 0
    let q3 := sorted.getD (3 * n / 4) 0
    let iqr := q3 - q1
    let lower := q1 - 3 / 2 * iqr
    let upper := q3 + 3 / 2 * iqr
    let filtered := values.filter (fun v => decide (lower ≤ v ∧ v ≤ upper))
    if 0 < filtered.length then filtered.sum / (filtered.length : ℚ)
    else values.sum / (values.length : ℚ)

/-- `DataPreprocessor.calculateDataQuality` (part_005, lines 165-177), at its
call arity of five per-signal clean counts. -/
def calculateDataQuality (c1 c2 c3 c4 c5 : ℕ) : ℚ :=
  let maxCount : ℕ := max c1 (max c2 (max c3 (max c4 c5)))
  let minCount : ℕ := min c1 (min c2 (min c3 (min c4 c5)))
  let consistency : ℚ := if 0 < maxCount then (minCount : ℚ) / (maxCount : ℚ) else 0
  let totalPoints : ℕ := c1 + c2 + c3 + c4 + c5
  let dataRichness : ℚ := min 1 ((totalPoints : ℚ) / 50)
  consistency * (6 / 10) + dataRichness * (4 / 10)

/-- `DataPreprocessor.calculateDataCompleteness` (part_005, lines 180-187):
mean of the five per-signal `min(1, count / 10)` scores. -/
def calculateDataCompleteness (c1 c2 c3 c4 c5 : ℕ) : ℚ :=
  (min 1 ((c1 : ℚ) / 10) + min 1 ((c2 : ℚ) / 10) + min 1 ((c3 : ℚ) / 10) +
    min 1 ((c4 : ℚ) / 10) + min 1 ((c5 : ℚ) / 10)) / 5

/-- `ProcessedFeatures` record of the basic preprocessor. -/
structure ProcessedFeatures where
  soilMoisture : ℚ
  temperature : ℚ
  fireIndex : ℚ
  seaLevel : ℚ
  glacierMelting : ℚ
  quality : ℚ
  completeness : ℚ
deriving DecidableEq

/-- `DataPreprocessor.aggregateData` (part_005, lines 69-131). -/
def aggregateData (soilMoisture temperature fireIndex seaLevel glacierMelting :
    List RawSample) : ProcessedFeatures :=
  let csm := cleanData soilMoisture
  let ct := cleanData temperature
  let cfi := cleanData fireIndex
  let csl := cleanData seaLevel
  let cgm := cleanData glacierMelting
  { soilMoisture := calculateRobustAverage (csm.map (fun s => s.value))
    temperature := calculateRobustAverage (ct.map (fun s => s.value))
    fireIndex := calculateRobustAverage (cfi.map (fun s => s.value))
    seaLevel := calculateRobustAverage (csl.map (fun s => s.value))
    glacierMelting := calculateRobustAverage (cgm.map (fun s => s.value))
    quality := calculateDataQuality csm.length ct.length cfi.length csl.length cgm.length
    completeness := calculateDataCompleteness csm.length ct.length cfi.length
      csl.length cgm.length }

/-!
The basic geographic adjustment copies a record of primitive number fields
(`{ ...features }`), so unlike the enhanced variant every block reads the
ORIGINAL field values while writing to the copy: later blocks overwrite
earlier ones without seeing their writes.
-/

/-- `DataPreprocessor.adjustForGeographicContext` (part_005, lines 230-265). -/
def adjustForGeographicContext (f : ProcessedFeatures) (lat lon : ℚ) :
    ProcessedFeatures :=
  let f1 := if isDesertRegion lat lon then
      { f with soilMoisture := min f.soilMoisture 15, temperature := max f.temperature 25,
               fireIndex := max f.fireIndex 60, seaLevel := 0, glacierMelting := 0 }
    else f
  let f2 := if isPolarRegion lat lon then
      { f1 with soilMoisture := min f.soilMoisture 40, temperature := min f.temperature 15,
                fireIndex := min f.fireIndex 30, seaLevel := 0,
                glacierMelting := max f.glacierMelting 5 }
    else f1
  if isCoastalRegion lat lon then { f2 with seaLevel := max f.seaLevel (5 / 100) } else f2

/-- `NormalizedData` record of the basic preprocessor (fields the claims use). -/
structure NormalizedData where
  features : List ℚ
  quality : ℚ
  completeness : ℚ

/-- `DataPreprocessor.normalizeFeatures` (part_005, lines 190-227). -/
def normalizeFeatures (f : ProcessedFeatures) : NormalizedData :=
  { features := [normalizeRange (0, 100) f.soilMoisture,
      normalizeRange (-50, 60) f.temperature,
      normalizeRange (0, 100) f.fireIndex,
      normalizeRange (0, 1) f.seaLevel,
      normalizeRange (0, 20) f.glacierMelting]
    quality := f.quality
    completeness := f.completeness }

/-- `DataPreprocessor.processDataForML` (part_005, lines 293-341). -/
def processDataForML (soilMoisture temperature fireIndex seaLevel glacierMelting :
    List RawSample) (lat lon : ℚ) : NormalizedData :=
  normalizeFeatures
    (adjustForGeographicContext
      (aggregateData soilMoisture temperature fireIndex seaLevel glacierMelting) lat lon)

/-- Prediction record shared by the basic models (`mlModels.ts`). -/
structure ModelPrediction where
  droughtRisk : ℚ
  floodRisk : ℚ
  confidence : ℚ
deriving DecidableEq

/-- Ensemble weight of the linear sub-model (mlModels.ts, line 448). -/
def ensembleWeightLinear : ℚ := 2 / 10

/-- Ensemble weight of the neural sub-model. -/
def ensembleWeightNeural : ℚ := 5 / 10

/-- Ensemble weight of the random-forest sub-model. -/
def ensembleWeightForest : ℚ := 3 / 10

/-- The combination step of `EnsembleModel.predict` (mlModels.ts,
lines 447-473): weighted blend of the three sub-model predictions, risks
clamped to [0,1] and confidence capped at 0.95. -/
def ensemblePredictCombine (linearPred neuralPred rfPred : ModelPrediction) :
    ModelPrediction :=
  let droughtRisk := linearPred.droughtRisk * ensembleWeightLinear +
    neuralPred.droughtRisk * ensembleWeightNeural +
    rfPred.droughtRisk * ensembleWeightForest
  let floodRisk := linearPred.floodRisk * ensembleWeightLinear +
    neuralPred.floodRisk * ensembleWeightNeural +
    rfPred.floodRisk * ensembleWeightForest
  let confidence := linearPred.confidence * ensembleWeightLinear +
    neuralPred.confidence * ensembleWeightNeural +
    rfPred.confidence * ensembleWeightForest
  { droughtRisk := clamp01 droughtRisk
    floodRisk := clamp01 floodRisk
    confidence := min (95 / 100) confidence }

/-- Prediction record of the enhanced models (`enhancedMLModels.ts`). -/
structure EnhancedModelPrediction where
  droughtRisk : ℚ
  floodRisk : ℚ
  confidence : ℚ
  uncertainty : ℚ
  featureImportance : List ℚ
deriving DecidableEq

/-- `EnhancedNeuralNetworkModel.calculateUncertainty` (enhancedMLModels.ts,
lines 445-449): `min(1, 2 * |droughtRisk - floodRisk|)`. -/
def calculateUncertainty (droughtRisk floodRisk : ℚ) : ℚ :=
  min 1 (|droughtRisk - floodRisk| * 2)

/-- `EnhancedNeuralNetworkModel.calculateFeatureImportance`:
`|feature[i]| * 1 / (i + 1)`. -/
def calculateFeatureImportance (features : List ℚ) : List ℚ :=
  features.enum.map (fun p => |p.2| * (1 / ((p.1 : ℚ) + 1)))

/-- The post-processing of `EnhancedNeuralNetworkModel.predict`
(enhancedMLModels.ts, lines 394-432) as a function of the raw network
outputs `dRaw`, `fRaw` (arbitrary reals): clamp the risks into [0,1],
compute confidence from the fraction of positive features, capped at 0.95,
and derive the uncertainty from the clamped risks. -/
def enhancedNeuralPredictPost (features : List ℚ) (dRaw fRaw : ℚ) :
    EnhancedModelPrediction :=
  let droughtRisk := clamp01 dRaw
  let floodRisk := clamp01 fRaw
  let confidence := 8 / 10 +
    (((features.filter (fun x => decide (0 < x))).length : ℚ) / (features.length : ℚ)) * (2 / 10)
  { droughtRisk := droughtRisk
    floodRisk := floodRisk
    confidence := min (95 / 100) confidence
    uncertainty := calculateUncertainty droughtRisk floodRisk
    featureImportance := calculateFeatureImportance features }

/-- The post-processing of `EnhancedEnsembleModel.predict` (enhancedMLModels.ts,
lines 467-484): the enhanced neural prediction with confidence scaled by 0.95
and uncertainty scaled by 1.1. -/
def enhancedEnsemblePredictPost (features : List ℚ) (dRaw fRaw : ℚ) :
    EnhancedModelPrediction :=
  let p := enhancedNeuralPredictPost features dRaw fRaw
  { p with confidence := p.confidence * (95 / 100), uncertainty := p.uncertainty * (11 / 10) }

/-- A decision tree of the simplified `RandomForestModel` (mlModels.ts,
lines 313-370): a leaf carries the averaged drought/flood risks of its
training subset. -/
inductive RTree where
  | leaf (droughtRisk floodRisk : ℚ)
  | node (featureIndex : ℕ) (threshold : ℚ) (left right : RTree)

/-- `RandomForestModel.predictTree` (mlModels.ts, lines 372-382).  The
trained trees only index features 0-4, so the `getD` default is never
consulted on pipeline inputs. -/
def predictTree : RTree → List ℚ → ℚ × ℚ
  | .leaf d f, _ => (d, f)
  | .node i th l r, features =>
    if features.getD i 0 ≤ th then predictTree l features else predictTree r features

/-- Every leaf risk of the tree lies in [0,1].  `RandomForestModel.createTree`
guarantees this: its leaves average training risks, which are drawn from
[0.05, 0.95] ⊆ [0,1]. -/
def RTree.leavesBounded : RTree → Prop
  | .leaf d f => 0 ≤ d ∧ d ≤ 1 ∧ 0 ≤ f ∧ f ≤ 1
  | .node _ _ l r => l.leavesBounded ∧ r.leavesBounded

/-- `RandomForestModel.predict` (mlModels.ts, lines 384-407) over the trained
tree list, with `Math.sqrt` abstracted: average the per-tree predictions,
clamp the risks to [0,1], and derive the confidence from the prediction
variance, capped at 0.95.  (A trained model always has 50 trees; the
JS `0/0 = NaN` of an empty tree list is excluded by hypothesis where this
definition is used.) -/
def randomForestPredict (sqrtQ : ℚ → ℚ) (trees : List RTree) (features : List ℚ) :
    ModelPrediction :=
  let predictions := trees.map (fun t => predictTree t features)
  let avgDroughtRisk := (predictions.map (fun p => p.1)).sum / (predictions.length : ℚ)
  let avgFloodRisk := (predictions.map (fun p => p.2)).sum / (predictions.length : ℚ)
  let droughtVariance := (predictions.map (fun p =>
    (p.1 - avgDroughtRisk) * (p.1 - avgDroughtRisk))).sum / (predictions.length : ℚ)
  let floodVariance := (predictions.map (fun p =>
    (p.2 - avgFloodRisk) * (p.2 - avgFloodRisk))).sum / (predictions.length : ℚ)
  let confidence := 65 / 100 + (1 - sqrtQ (droughtVariance + floodVariance)) * (3 / 10)
  { droughtRisk := clamp01 avgDroughtRisk
    floodRisk := clamp01 avgFloodRisk
    confidence := min (95 / 100) confidence }

/-- The post-processing of `LinearRegressionModel.predict` (mlModels.ts,
lines 171-200) as a function of the raw network outputs: risks clamped to
[0,1], confidence `0.6 + (positiveCount / 5) * 0.3` capped at 0.95. -/
def linearPredictPost (features : List ℚ) (dRaw fRaw : ℚ) : ModelPrediction :=
  { droughtRisk := clamp01 dRaw
    floodRisk := clamp01 fRaw
    confidence := min (95 / 100)
      (6 / 10 + (((features.filter (fun x => decide (0 < x))).length : ℚ) / 5) * (3 / 10)) }

/-- The post-processing of `NeuralNetworkModel.predict` (mlModels.ts,
lines 280-309): risks clamped to [0,1], confidence
`0.7 + (positiveCount / 5) * 0.25` capped at 0.95. -/
def neuralPredictPost (features : List ℚ) (dRaw fRaw : ℚ) : ModelPrediction :=
  { droughtRisk := clamp01 dRaw
    floodRisk := clamp01 fRaw
    confidence := min (95 / 100)
      (7 / 10 + (((features.filter (fun x => decide (0 < x))).length : ℚ) / 5) * (25 / 100)) }

/-- Risk buckets of the orchestrator. -/
inductive RiskLevel where
  | low
  | medium
  | high
  | extreme
deriving DecidableEq

/-- Numeric rank of a bucket, for stating monotonicity. -/
def RiskLevel.rank : RiskLevel → ℕ
  | .low => 0
  | .medium => 1
  | .high => 2
  | .extreme => 3

/-- `getRiskLevel` from `apiService.runMLPrediction` (apiService.ts,
lines 439-444): fixed thresholds 0.25 / 0.5 / 0.75. -/
def getRiskLevel (probability : ℚ) : RiskLevel :=
  if probability < 25 / 100 then .low
  else if probability < 5 / 10 then .medium
  else if probability < 75 / 100 then .high
  else .extreme

/-- Final confidence of the basic branch of `apiService.runMLPrediction`
(line 475): `mlPrediction.confidence * processedData.quality`. -/
def finalConfidenceBasic (modelConfidence quality : ℚ) : ℚ :=
  modelConfidence * quality

/-- Final confidence of the enhanced branch of `apiService.runMLPrediction`
(line 401): `confidence * quality * dataRichness`. -/
def finalConfidenceEnhanced (modelConfidence quality dataRichness : ℚ) : ℚ :=
  modelConfidence * quality * dataRichness

/-! ### Helper lemmas -/

lemma clamp01_nonneg (x : ℚ) : 0 ≤ clamp01 x := le_max_left 0 _

lemma clamp01_le_one (x : ℚ) : clamp01 x ≤ 1 :=
  max_le (by norm_num) (min_le_left _ _)

lemma clamp01_le {x c : ℚ} (hx : x ≤ c) (hc : 0 ≤ c) : clamp01 x ≤ c :=
  max_le hc (le_trans (min_le_right _ _) hx)

lemma le_clamp01 {x c : ℚ} (hx : c ≤ x) (hc : c ≤ 1) : c ≤ clamp01 x :=
  le_trans (le_min hc hx) (le_max_right _ _)

lemma clamp01_eq_self {x : ℚ} (h0 : 0 ≤ x) (h1 : x ≤ 1) : clamp01 x = x := by
  unfold clamp01
  rw [min_eq_right h1, max_eq_right h0]

/-! ### C7: risk bucketing -/

/-- C7: the orchestrator's risk level is the step function with thresholds
exactly at 0.25, 0.5 and 0.75 (`<0.25` low, `[0.25,0.5)` medium, `[0.5,0.75)`
high, `≥0.75` extreme), and it is non-decreasing in the probability. -/
theorem getRiskLevel_buckets_and_monotone : ∀ p q : ℚ,
    ((getRiskLevel p = RiskLevel.low) ↔ p < 25 / 100) ∧
    ((getRiskLevel p = RiskLevel.medium) ↔ 25 / 100 ≤ p ∧ p < 5 / 10) ∧
    ((getRiskLevel p = RiskLevel.high) ↔ 5 / 10 ≤ p ∧ p < 75 / 100) ∧
    ((getRiskLevel p = RiskLevel.extreme) ↔ 75 / 100 ≤ p) ∧
    (p ≤ q → (getRiskLevel p).rank ≤ (getRiskLevel q).rank) := by
  intro p q
  refine ⟨?_, ?_, ?_, ?_, ?_⟩
  · unfold getRiskLevel
    split_ifs with h1 h2 h3 <;> simp_all <;>
      first
        | linarith
        | (intro h; linarith)
        | (constructor <;> linarith)
  · unfold getRiskLevel
    split_ifs with h1 h2 h3 <;> simp_all <;>
      first
        | linarith
        | (intro h; linarith)
        | (constructor <;> linarith)
  · unfold getRiskLevel
    split_ifs with h1 h2 h3 <;> simp_all <;>
      first
        | linarith
        | (intro h; linarith)
        | (constructor <;> linarith)
  · unfold getRiskLevel
    split_ifs with h1 h2 h3 <;> simp_all <;>
      first
        | linarith
        | (intro h; linarith)
        | (constructor <;> linarith)
  · intro hpq
    unfold getRiskLevel
    split_ifs <;> simp_all [RiskLevel.rank] <;> linarith

/-- Witness for C7: 0.2499 ≤ 0.9 and the corresponding ranks are ordered. -/
theorem getRiskLevel_buckets_and_monotone_witness :
    (2499 / 10000 : ℚ) ≤ 9 / 10 ∧
    (getRiskLevel (2499 / 10000)).rank ≤ (getRiskLevel (9 / 10)).rank :=
  ⟨by norm_num,
    (getRiskLevel_buckets_and_monotone (2499 / 10000) (9 / 10)).2.2.2.2 (by norm_num)⟩

/-! ### C8: basic ensemble agreement -/

/-- C8: the basic ensemble's weights 0.2, 0.5, 0.3 sum to 1, and when all
three sub-models report the same risk value v ∈ [0,1] the blended output
equals v exactly, for both risk outputs. -/
theorem ensemble_weights_sum_and_agreement :
    ensembleWeightLinear + ensembleWeightNeural + ensembleWeightForest = 1 ∧
    ∀ v c1 c2 c3 : ℚ, 0 ≤ v → v ≤ 1 →
      (ensemblePredictCombine ⟨v, v, c1⟩ ⟨v, v, c2⟩ ⟨v, v, c3⟩).droughtRisk = v ∧
      (ensemblePredictCombine ⟨v, v, c1⟩ ⟨v, v, c2⟩ ⟨v, v, c3⟩).floodRisk = v := by
  constructor
  · norm_num [ensembleWeightLinear, ensembleWeightNeural, ensembleWeightForest]
  · intro v c1 c2 c3 h0 h1
    have hv : v * ensembleWeightLinear + v * ensembleWeightNeural +
        v * ensembleWeightForest = v := by
      norm_num [ensembleWeightLinear, ensembleWeightNeural, ensembleWeightForest]
      ring
    constructor
    · show clamp01 (v * ensembleWeightLinear + v * ensembleWeightNeural +
        v * ensembleWeightForest) = v
      rw [hv]
      exact clamp01_eq_self h0 h1
    · show clamp01 (v * ensembleWeightLinear + v * ensembleWeightNeural +
        v * ensembleWeightForest) = v
      rw [hv]
      exact clamp01_eq_self h0 h1

/-- Witness for C8: sub-model agreement at v = 1/2 is reproduced exactly. -/
theorem ensemble_weights_sum_and_agreement_witness :
    (0 : ℚ) ≤ 1 / 2 ∧ (1 / 2 : ℚ) ≤ 1 ∧
    (ensemblePredictCombine ⟨1 / 2, 1 / 2, 0⟩ ⟨1 / 2, 1 / 2, 0⟩
      ⟨1 / 2, 1 / 2, 0⟩).droughtRisk = 1 / 2 :=
  ⟨by norm_num, by norm_num,
    (ensemble_weights_sum_and_agreement.2 (1 / 2) 0 0 0 (by norm_num) (by norm_num)).1⟩

/-! ### C5: confidence dampening -/

/-- C5: the final confidence is the model confidence times quality (basic
branch) resp. times quality times dataRichness (enhanced branch); with a
positive model confidence and quality, richness in [0,1] it never exceeds the
model confidence, with equality exactly at quality = 1 (and richness = 1). -/
theorem finalConfidence_dampening : ∀ mc q r : ℚ,
    0 < mc → 0 ≤ q → q ≤ 1 → 0 ≤ r → r ≤ 1 →
    (finalConfidenceBasic mc q ≤ mc ∧ (finalConfidenceBasic mc q = mc ↔ q = 1)) ∧
    (finalConfidenceEnhanced mc q r ≤ mc ∧
      (finalConfidenceEnhanced mc q r = mc ↔ q = 1 ∧ r = 1)) := by
  intro mc q r hmc hq0 hq1 hr0 hr1
  unfold finalConfidenceBasic finalConfidenceEnhanced
  refine ⟨⟨?_, ?_, ?_⟩, ⟨?_, ?_, ?_⟩⟩
  · nlinarith
  · intro h
    exact mul_left_cancel₀ (ne_of_gt hmc) (h.trans (mul_one mc).symm)
  · intro h
    rw [h, mul_one]
  · have hqr1 : q * r ≤ 1 := mul_le_one₀ hq1 hr0 hr1
    rw [mul_assoc]
    exact mul_le_of_le_one_right (le_of_lt hmc) hqr1
  · intro h
    have hqr : q * r = 1 := by
      have h' : mc * (q * r) = mc * 1 := by
        rw [mul_one, ← mul_assoc]
        exact h
      exact mul_left_cancel₀ (ne_of_gt hmc) h'
    have hle : q * r ≤ r := mul_le_of_le_one_left hr0 hq1
    have hr : r = 1 := le_antisymm hr1 (hqr ▸ hle)
    have hq : q = 1 := by
      have h2 := hqr
      rw [hr, mul_one] at h2
      exact h2
    exact ⟨hq, hr⟩
  · rintro ⟨h1, h2⟩
    rw [h1, h2, mul_one, mul_one]

/-- Witness for C5 at model confidence 1/2, quality 1, richness 1. -/
theorem finalConfidence_dampening_witness :
    (0 : ℚ) < 1 / 2 ∧ finalConfidenceBasic (1 / 2) 1 ≤ 1 / 2 :=
  ⟨by norm_num,
    ((finalConfidence_dampening (1 / 2) 1 1 (by norm_num) (by norm_num) (by norm_num)
      (by norm_num) (by norm_num)).1).1⟩

/-! ### C9: robust mean -/

/-- The robust mean exactly as the spec words it: Q1 and Q3 at indices
`floor(n*0.25)` and `floor(n*0.75)` of the ascending-sorted sequence (not
interpolated), averaging only the values inside
`[Q1 - 1.5*IQR, Q3 + 1.5*IQR]` (stated here over the sorted sequence), with a
fallback to the unfiltered mean when the filter removes everything. -/
def robustMeanSpec (values : List ℚ) : ℚ :=
  if values = [] then 0
  else
    let sorted := values.mergeSort (fun a b => decide (a ≤ b))
    let n := sorted.length
    let q1 := sorted.getD (n / 4) 0
    let q3 := sorted.getD (3 * n / 4) 0
    let lower := q1 - 3 / 2 * (q3 - q1)
    let upper := q3 + 3 / 2 * (q3 - q1)
    let inBound := sorted.filter (fun v => decide (lower ≤ v ∧ v ≤ upper))
    if inBound = [] then sorted.sum / (sorted.length : ℚ)
    else inBound.sum / (inBound.length : ℚ)

/-- C9: `DataPreprocessor.calculateRobustAverage` coincides with the spec's
reference robust mean on every input, returns x on a single-element list and
0 on the empty list. -/
theorem robustAverage_matches_spec :
    (∀ xs : List ℚ, calculateRobustAverage xs = robustMeanSpec xs) ∧
    (∀ x : ℚ, calculateRobustAverage [x] = x) ∧
    calculateRobustAverage ([] : List ℚ) = 0 := by
  refine ⟨?_, ?_, ?_⟩
  · intro xs
    rcases eq_or_ne xs [] with h | h
    · subst h
      rfl
    · simp only [calculateRobustAverage, robustMeanSpec]
      have hlen : ¬ xs.length = 0 := fun hc => h (List.length_eq_zero.mp hc)
      rw [if_neg hlen, if_neg h]
      set S := xs.mergeSort (fun a b : ℚ => decide (a ≤ b)) with hS
      have hperm : List.Perm S xs := List.mergeSort_perm xs _
      set q1 := S.getD (S.length / 4) 0 with hq1
      set q3 := S.getD (3 * S.length / 4) 0 with hq3
      set p := fun v : ℚ =>
        decide (q1 - 3 / 2 * (q3 - q1) ≤ v ∧ v ≤ q3 + 3 / 2 * (q3 - q1)) with hp
      have hfp : List.Perm (xs.filter p) (S.filter p) := (hperm.filter p).symm
      have hlenf : (S.filter p).length = (xs.filter p).length := (hfp.length_eq).symm
      have hsumf : (xs.filter p).sum = (S.filter p).sum := hfp.sum_eq
      have hsum : xs.sum = S.sum := hperm.sum_eq.symm
      have hlen2 : S.length = xs.length := hperm.length_eq
      by_cases hf : 0 < (xs.filter p).length
      · have hne : ¬ S.filter p = [] := by
          intro hnil
          rw [hnil] at hlenf
          simp only [List.length_nil] at hlenf
          omega
        rw [if_pos hf, if_neg hne, hsumf, hlenf]
      · have hnil : S.filter p = [] := by
          apply List.length_eq_zero.mp
          omega
        rw [if_neg hf, if_pos hnil, hsum, hlen2]
  · intro x
    simp only [calculateRobustAverage]
    rw [if_neg (by simp)]
    simp only [List.mergeSort_singleton]
    simp [List.filter, sub_self, mul_zero, sub_zero, add_zero, le_refl]
  · rfl

/-! ### C2: quality formulas -/

/-- The quality formula exactly as the spec words it for the basic variant:
`0.6 * consistency + 0.4 * min(1, totalCleanPoints / 50)` with
`consistency = min(cleanCounts) / max(cleanCounts)` (0 if the max is 0). -/
def specQualityBasic (c1 c2 c3 c4 c5 : ℕ) : ℚ :=
  let maxCount : ℕ := max c1 (max c2 (max c3 (max c4 c5)))
  let minCount : ℕ := min c1 (min c2 (min c3 (min c4 c5)))
  let consistency : ℚ := if 0 < maxCount then (minCount : ℚ) / (maxCount : ℚ) else 0
  6 / 10 * consistency + 4 / 10 * min 1 (((c1 + c2 + c3 + c4 + c5 : ℕ) : ℚ) / 50)

/-- The mean of the five per-signal `min(1, count / 10)` scores (expected
minimum 10 per signal), which the spec calls the enhanced richness. -/
def specCompleteness10 (c1 c2 c3 c4 c5 : ℕ) : ℚ :=
  (min 1 ((c1 : ℚ) / 10) + min 1 ((c2 : ℚ) / 10) + min 1 ((c3 : ℚ) / 10) +
    min 1 ((c4 : ℚ) / 10) + min 1 ((c5 : ℚ) / 10)) / 5

/-- The enhanced quality score as the claim states it:
`0.6 * consistency + 0.4 * (mean of the five min(1, count/10) scores)`. -/
def specClaimedEnhancedQuality (c1 c2 c3 c4 c5 : ℕ) : ℚ :=
  let maxCount : ℕ := max c1 (max c2 (max c3 (max c4 c5)))
  let minCount : ℕ := min c1 (min c2 (min c3 (min c4 c5)))
  let consistency : ℚ := if 0 < maxCount then (minCount : ℚ) / (maxCount : ℚ) else 0
  6 / 10 * consistency + 4 / 10 * specCompleteness10 c1 c2 c3 c4 c5

/-- Per-signal retained/total ratio of the enhanced cleaning step. -/
def retainedFraction (nowYear : Int) (xs : List RawSample) : ℚ :=
  ((xs.filter (enhancedSampleValid nowYear)).length : ℚ) / (xs.length : ℚ)

/-- An in-range sample with nonzero coordinates and a fresh parsable
timestamp: it passes every cleaning check of both variants. -/
def controlSample : RawSample :=
  { tsNonempty := true, tsParses := true, tsYear := 2024
    latitude := 10, longitude := 10, value := 33 }

/-- Counterexample to C2: with one valid sample per signal the enhanced
pipeline's quality is 1 (the mean of the five retention ratios), while the
claimed `0.6*consistency + 0.4*mean(min(1,count/10))` formula gives 0.64. -/
theorem enhancedQuality_counterexample :
    (aggregateDataWithTimeSeries (fun _ => 0) 2025 [controlSample] [controlSample]
      [controlSample] [controlSample] [controlSample]).quality = some 1 ∧
    specClaimedEnhancedQuality 1 1 1 1 1 = 16 / 25 ∧
    (1 : ℚ) ≠ 16 / 25 := by
  refine ⟨?_, ?_, by norm_num⟩
  · have hfil : List.filter (enhancedSampleValid 2025) [controlSample] = [controlSample] := by
      decide
    simp only [aggregateDataWithTimeSeries, cleanAndValidateData, hfil]
    norm_num [jsAdd]
  · norm_num [specClaimedEnhancedQuality, specCompleteness10]

/-- C2 (amended): the basic quality is `0.6*consistency + 0.4*min(1,total/50)`
as claimed; the mean-of-five `min(1,count/10)` scores is the basic variant's
completeness, not part of any quality blend; and the enhanced pipeline's
quality is instead the mean of the five per-signal retention ratios
`cleanCount/originalCount` (defined whenever every signal has at least one
raw sample). -/
theorem quality_formulas :
    (∀ c1 c2 c3 c4 c5 : ℕ,
      calculateDataQuality c1 c2 c3 c4 c5 = specQualityBasic c1 c2 c3 c4 c5) ∧
    (∀ c1 c2 c3 c4 c5 : ℕ,
      calculateDataCompleteness c1 c2 c3 c4 c5 = specCompleteness10 c1 c2 c3 c4 c5) ∧
    (∀ (sqrtQ : ℚ → ℚ) (nowYear : Int) (sm t fi sl gm : List RawSample),
      sm ≠ [] → t ≠ [] → fi ≠ [] → sl ≠ [] → gm ≠ [] →
      (aggregateDataWithTimeSeries sqrtQ nowYear sm t fi sl gm).quality =
        some ((retainedFraction nowYear sm + retainedFraction nowYear t +
          retainedFraction nowYear fi + retainedFraction nowYear sl +
          retainedFraction nowYear gm) / 5)) := by
  refine ⟨?_, ?_, ?_⟩
  · intro c1 c2 c3 c4 c5
    simp only [calculateDataQuality, specQualityBasic]
    ring
  · intro c1 c2 c3 c4 c5
    rfl
  · intro sqrtQ nowYear sm t fi sl gm h1 h2 h3 h4 h5
    have l1 : ¬ sm.length = 0 := fun hc => h1 (List.length_eq_zero.mp hc)
    have l2 : ¬ t.length = 0 := fun hc => h2 (List.length_eq_zero.mp hc)
    have l3 : ¬ fi.length = 0 := fun hc => h3 (List.length_eq_zero.mp hc)
    have l4 : ¬ sl.length = 0 := fun hc => h4 (List.length_eq_zero.mp hc)
    have l5 : ¬ gm.length = 0 := fun hc => h5 (List.length_eq_zero.mp hc)
    simp only [aggregateDataWithTimeSeries, cleanAndValidateData, retainedFraction]
    rw [if_neg l1, if_neg l2, if_neg l3, if_neg l4, if_neg l5]
    simp only [jsAdd, Option.map_some']
    rw [Option.some_inj]
    ring

/-- Witness for C2's amended enhanced-quality statement at five
single-sample signals. -/
theorem quality_formulas_witness :
    ([controlSample] : List RawSample) ≠ [] ∧
    (aggregateDataWithTimeSeries (fun _ => 1) 2025 [controlSample] [controlSample]
      [controlSample] [controlSample] [controlSample]).quality =
      some ((retainedFraction 2025 [controlSample] + retainedFraction 2025 [controlSample] +
        retainedFraction 2025 [controlSample] + retainedFraction 2025 [controlSample] +
        retainedFraction 2025 [controlSample]) / 5) :=
  ⟨by decide,
    quality_formulas.2.2 (fun _ => 1) 2025 _ _ _ _ _ (by decide) (by decide) (by decide)
      (by decide) (by decide)⟩

/-! ### C3: all-empty inputs -/

/-- C3 evaluated on the code: with all five signal arrays empty neither
pipeline throws; the basic aggregation yields quality 0, completeness 0 and
all five level features 0, and the enhanced aggregation yields the neutral
level features [0,0,0,0,0] — but its quality is the JS value `0/0 = NaN`
(modelled as `none`), not a number at or near 0. -/
theorem emptyInputs_basic_zero_enhanced_NaN : ∀ (sqrtQ : ℚ → ℚ) (nowYear : Int),
    (aggregateData [] [] [] [] []).soilMoisture = 0 ∧
    (aggregateData [] [] [] [] []).temperature = 0 ∧
    (aggregateData [] [] [] [] []).fireIndex = 0 ∧
    (aggregateData [] [] [] [] []).seaLevel = 0 ∧
    (aggregateData [] [] [] [] []).glacierMelting = 0 ∧
    (aggregateData [] [] [] [] []).quality = 0 ∧
    (aggregateData [] [] [] [] []).completeness = 0 ∧
    (aggregateDataWithTimeSeries sqrtQ nowYear [] [] [] [] []).basicFeatures =
      [0, 0, 0, 0, 0] ∧
    (aggregateDataWithTimeSeries sqrtQ nowYear [] [] [] [] []).quality = none := by
  intro sqrtQ nowYear
  refine ⟨rfl, rfl, rfl, rfl, rfl, ?_, ?_, rfl, rfl⟩
  · show calculateDataQuality 0 0 0 0 0 = 0
    norm_num [calculateDataQuality]
  · show calculateDataCompleteness 0 0 0 0 0 = 0
    norm_num [calculateDataCompleteness]

/-! ### C4: zero coordinates are dropped -/

/-- A sample on the equator: in-range coordinates, fresh parsable timestamp —
but its latitude is the JS-falsy number 0. -/
def equatorSample : RawSample :=
  { tsNonempty := true, tsParses := true, tsYear := 2024
    latitude := 0, longitude := 10, value := 33 }

/-- C4 evaluated on the code: the equator sample satisfies every validity
condition of the claim (in-range coordinates, parsable recent timestamp),
yet both cleaning variants drop it, because `!item.latitude` treats the
number 0 as missing; the control sample with nonzero coordinates is kept. -/
theorem cleanData_drops_zero_coordinates :
    cleanData [equatorSample] = [] ∧
    (cleanAndValidateData 2025 [equatorSample]).cleanSamples = [] ∧
    (-90 ≤ equatorSample.latitude ∧ equatorSample.latitude ≤ 90 ∧
      -180 ≤ equatorSample.longitude ∧ equatorSample.longitude ≤ 180 ∧
      equatorSample.tsNonempty = true ∧ equatorSample.tsParses = true ∧
      (2025 - equatorSample.tsYear).natAbs ≤ 10) ∧
    cleanData [controlSample] = [controlSample] ∧
    (cleanAndValidateData 2025 [controlSample]).cleanSamples = [controlSample] := by
  decide

/-! ### C6: prediction bounds -/

/-- Counterexample to C6: with raw outputs 1 and 0 the enhanced ensemble's
uncertainty is `min(1, 2*|1-0|) * 1.1 = 1.1 > 1`. -/
theorem enhancedEnsemble_uncertainty_counterexample :
    1 < (enhancedEnsemblePredictPost (List.replicate 25 1) 1 0).uncertainty := by
  norm_num [enhancedEnsemblePredictPost, enhancedNeuralPredictPost,
    calculateUncertainty, clamp01]

lemma list_sum_le_length {l : List ℚ} (h : ∀ x ∈ l, x ≤ 1) : l.sum ≤ (l.length : ℚ) := by
  have h2 := List.sum_le_card_nsmul l 1 h
  simpa [nsmul_eq_mul] using h2

lemma predictTree_bounds : ∀ (t : RTree) (features : List ℚ), t.leavesBounded →
    0 ≤ (predictTree t features).1 ∧ (predictTree t features).1 ≤ 1 ∧
    0 ≤ (predictTree t features).2 ∧ (predictTree t features).2 ≤ 1 := by
  intro t
  induction t with
  | leaf d f =>
    intro features hb
    exact hb
  | node i th l r ihl ihr =>
    intro features hb
    obtain ⟨hbl, hbr⟩ := hb
    simp only [predictTree]
    split_ifs with h
    · exact ihl features hbl
    · exact ihr features hbr

lemma map_mean_bounds {α : Type} (g : α → ℚ) {l : List α} (hne : l ≠ [])
    (h : ∀ x ∈ l, 0 ≤ g x ∧ g x ≤ 1) :
    0 ≤ (l.map g).sum / (l.length : ℚ) ∧ (l.map g).sum / (l.length : ℚ) ≤ 1 := by
  have hpos : (0 : ℚ) < (l.length : ℚ) := by
    have : 0 < l.length := List.length_pos.mpr hne
    exact_mod_cast this
  have hmem : ∀ y ∈ l.map g, 0 ≤ y ∧ y ≤ 1 := by
    intro y hy
    obtain ⟨x, hx, rfl⟩ := List.mem_map.mp hy
    exact h x hx
  constructor
  · exact div_nonneg (List.sum_nonneg fun y hy => (hmem y hy).1) hpos.le
  · rw [div_le_one hpos]
    calc (l.map g).sum ≤ ((l.map g).length : ℚ) :=
          list_sum_le_length (fun y hy => (hmem y hy).2)
      _ = (l.length : ℚ) := by rw [List.length_map]

/-- C6 (amended): every predictor's prediction is bounded.  The basic linear
and neural post-processings, the random forest over trained trees (leaf risks
in [0,1], `Math.sqrt` bounded by 2 on [0,2] as the real square root is), the
basic ensemble blend of sub-predictions with nonnegative confidences, and the
enhanced neural predictor all keep droughtRisk, floodRisk and confidence in
[0,1], with the enhanced neural uncertainty `min(1, 2|d-f|)` in [0,1]; the
enhanced ensemble keeps its confidence in [0,1] but scales the uncertainty by
1.1, so it is only bounded by 1.1, and it exceeds 1 whenever
|droughtRisk - floodRisk| ≥ 1/2. -/
theorem model_prediction_bounds :
    (∀ (features : List ℚ) (dRaw fRaw : ℚ),
      (0 ≤ (linearPredictPost features dRaw fRaw).droughtRisk ∧
        (linearPredictPost features dRaw fRaw).droughtRisk ≤ 1) ∧
      (0 ≤ (linearPredictPost features dRaw fRaw).floodRisk ∧
        (linearPredictPost features dRaw fRaw).floodRisk ≤ 1) ∧
      (0 ≤ (linearPredictPost features dRaw fRaw).confidence ∧
        (linearPredictPost features dRaw fRaw).confidence ≤ 1) ∧
      (0 ≤ (neuralPredictPost features dRaw fRaw).droughtRisk ∧
        (neuralPredictPost features dRaw fRaw).droughtRisk ≤ 1) ∧
      (0 ≤ (neuralPredictPost features dRaw fRaw).floodRisk ∧
        (neuralPredictPost features dRaw fRaw).floodRisk ≤ 1) ∧
      (0 ≤ (neuralPredictPost features dRaw fRaw).confidence ∧
        (neuralPredictPost features dRaw fRaw).confidence ≤ 1)) ∧
    (∀ (sqrtQ : ℚ → ℚ) (trees : List RTree) (features : List ℚ),
      trees ≠ [] → (∀ t ∈ trees, t.leavesBounded) →
      (∀ x : ℚ, 0 ≤ x → x ≤ 2 → sqrtQ x ≤ 2) →
      (0 ≤ (randomForestPredict sqrtQ trees features).droughtRisk ∧
        (randomForestPredict sqrtQ trees features).droughtRisk ≤ 1) ∧
      (0 ≤ (randomForestPredict sqrtQ trees features).floodRisk ∧
        (randomForestPredict sqrtQ trees features).floodRisk ≤ 1) ∧
      (0 ≤ (randomForestPredict sqrtQ trees features).confidence ∧
        (randomForestPredict sqrtQ trees features).confidence ≤ 1)) ∧
    (∀ lp np rp : ModelPrediction,
      0 ≤ lp.confidence → 0 ≤ np.confidence → 0 ≤ rp.confidence →
      (0 ≤ (ensemblePredictCombine lp np rp).droughtRisk ∧
        (ensemblePredictCombine lp np rp).droughtRisk ≤ 1) ∧
      (0 ≤ (ensemblePredictCombine lp np rp).floodRisk ∧
        (ensemblePredictCombine lp np rp).floodRisk ≤ 1) ∧
      (0 ≤ (ensemblePredictCombine lp np rp).confidence ∧
        (ensemblePredictCombine lp np rp).confidence ≤ 1)) ∧
    (∀ (features : List ℚ) (dRaw fRaw : ℚ), features ≠ [] →
      (0 ≤ (enhancedNeuralPredictPost features dRaw fRaw).droughtRisk ∧
        (enhancedNeuralPredictPost features dRaw fRaw).droughtRisk ≤ 1) ∧
      (0 ≤ (enhancedNeuralPredictPost features dRaw fRaw).floodRisk ∧
        (enhancedNeuralPredictPost features dRaw fRaw).floodRisk ≤ 1) ∧
      (0 ≤ (enhancedNeuralPredictPost features dRaw fRaw).confidence ∧
        (enhancedNeuralPredictPost features dRaw fRaw).confidence ≤ 1) ∧
      (0 ≤ (enhancedNeuralPredictPost features dRaw fRaw).uncertainty ∧
        (enhancedNeuralPredictPost features dRaw fRaw).uncertainty ≤ 1) ∧
      (0 ≤ (enhancedEnsemblePredictPost features dRaw fRaw).confidence ∧
        (enhancedEnsemblePredictPost features dRaw fRaw).confidence ≤ 1) ∧
      (0 ≤ (enhancedEnsemblePredictPost features dRaw fRaw).uncertainty ∧
        (enhancedEnsemblePredictPost features dRaw fRaw).uncertainty ≤ 11 / 10)) ∧
    (∀ (features : List ℚ) (dRaw fRaw : ℚ),
      1 / 2 ≤ |(enhancedNeuralPredictPost features dRaw fRaw).droughtRisk -
        (enhancedNeuralPredictPost features dRaw fRaw).floodRisk| →
      1 < (enhancedEnsemblePredictPost features dRaw fRaw).uncertainty) := by
  refine ⟨?_, ?_, ?_, ?_, ?_⟩
  · -- basic linear and neural post-processing
    intro features dRaw fRaw
    refine ⟨⟨clamp01_nonneg _, clamp01_le_one _⟩, ⟨clamp01_nonneg _, clamp01_le_one _⟩,
      ⟨?_, ?_⟩, ⟨clamp01_nonneg _, clamp01_le_one _⟩, ⟨clamp01_nonneg _, clamp01_le_one _⟩,
      ⟨?_, ?_⟩⟩
    · show 0 ≤ min (95 / 100 : ℚ)
        (6 / 10 + (((features.filter (fun x => decide (0 < x))).length : ℚ) / 5) * (3 / 10))
      exact le_min (by norm_num) (by positivity)
    · show min (95 / 100 : ℚ)
        (6 / 10 + (((features.filter (fun x => decide (0 < x))).length : ℚ) / 5) * (3 / 10)) ≤ 1
      exact le_trans (min_le_left _ _) (by norm_num)
    · show 0 ≤ min (95 / 100 : ℚ)
        (7 / 10 + (((features.filter (fun x => decide (0 < x))).length : ℚ) / 5) * (25 / 100))
      exact le_min (by norm_num) (by positivity)
    · show min (95 / 100 : ℚ)
        (7 / 10 + (((features.filter (fun x => decide (0 < x))).length : ℚ) / 5) * (25 / 100)) ≤ 1
      exact le_trans (min_le_left _ _) (by norm_num)
  · -- random forest
    intro sqrtQ trees features hne hb hsqrt
    refine ⟨⟨clamp01_nonneg _, clamp01_le_one _⟩, ⟨clamp01_nonneg _, clamp01_le_one _⟩,
      ?_, ?_⟩
    all_goals {
      set preds := trees.map (fun t => predictTree t features) with hpreds
      have hpredne : preds ≠ [] := by
        rw [hpreds]
        simpa using hne
      have hm : ∀ p ∈ preds, 0 ≤ p.1 ∧ p.1 ≤ 1 ∧ 0 ≤ p.2 ∧ p.2 ≤ 1 := by
        intro p hp
        rw [hpreds, List.mem_map] at hp
        obtain ⟨t, ht, rfl⟩ := hp
        exact predictTree_bounds t features (hb t ht)
      obtain ⟨hm1a, hm1b⟩ := map_mean_bounds (fun p => p.1) hpredne
        (fun p hp => ⟨(hm p hp).1, (hm p hp).2.1⟩)
      obtain ⟨hm2a, hm2b⟩ := map_mean_bounds (fun p => p.2) hpredne
        (fun p hp => ⟨(hm p hp).2.2.1, (hm p hp).2.2.2⟩)
      set m1 := (preds.map (fun p => p.1)).sum / (preds.length : ℚ) with hm1
      set m2 := (preds.map (fun p => p.2)).sum / (preds.length : ℚ) with hm2
      obtain ⟨hv1a, hv1b⟩ := map_mean_bounds (fun p => (p.1 - m1) * (p.1 - m1)) hpredne
        (fun p hp => ⟨mul_self_nonneg _, by
          show (p.1 - m1) * (p.1 - m1) ≤ 1
          have h1 := (hm p hp).1
          have h2 := (hm p hp).2.1
          nlinarith [mul_nonneg (by linarith : (0 : ℚ) ≤ 1 - (p.1 - m1))
            (by linarith : (0 : ℚ) ≤ 1 + (p.1 - m1))]⟩)
      obtain ⟨hv2a, hv2b⟩ := map_mean_bounds (fun p => (p.2 - m2) * (p.2 - m2)) hpredne
        (fun p hp => ⟨mul_self_nonneg _, by
          show (p.2 - m2) * (p.2 - m2) ≤ 1
          have h1 := (hm p hp).2.2.1
          have h2 := (hm p hp).2.2.2
          nlinarith [mul_nonneg (by linarith : (0 : ℚ) ≤ 1 - (p.2 - m2))
            (by linarith : (0 : ℚ) ≤ 1 + (p.2 - m2))]⟩)
      have hs := hsqrt
        ((preds.map (fun p => (p.1 - m1) * (p.1 - m1))).sum / (preds.length : ℚ) +
          (preds.map (fun p => (p.2 - m2) * (p.2 - m2))).sum / (preds.length : ℚ))
        (by linarith) (by linarith)
      first
        | (show 0 ≤ min (95 / 100 : ℚ)
            (65 / 100 + (1 - sqrtQ
              ((preds.map (fun p => (p.1 - m1) * (p.1 - m1))).sum / (preds.length : ℚ) +
                (preds.map (fun p => (p.2 - m2) * (p.2 - m2))).sum / (preds.length : ℚ)))
              * (3 / 10))
           exact le_min (by norm_num) (by linarith))
        | (show min (95 / 100 : ℚ)
            (65 / 100 + (1 - sqrtQ
              ((preds.map (fun p => (p.1 - m1) * (p.1 - m1))).sum / (preds.length : ℚ) +
                (preds.map (fun p => (p.2 - m2) * (p.2 - m2))).sum / (preds.length : ℚ)))
              * (3 / 10)) ≤ 1
           exact le_trans (min_le_left _ _) (by norm_num)) }
  · -- basic ensemble combine
    intro lp np rp h1 h2 h3
    have w1 : (0 : ℚ) ≤ lp.confidence * ensembleWeightLinear :=
      mul_nonneg h1 (by norm_num [ensembleWeightLinear])
    have w2 : (0 : ℚ) ≤ np.confidence * ensembleWeightNeural :=
      mul_nonneg h2 (by norm_num [ensembleWeightNeural])
    have w3 : (0 : ℚ) ≤ rp.confidence * ensembleWeightForest :=
      mul_nonneg h3 (by norm_num [ensembleWeightForest])
    refine ⟨⟨clamp01_nonneg _, clamp01_le_one _⟩, ⟨clamp01_nonneg _, clamp01_le_one _⟩,
      ?_, ?_⟩
    · show 0 ≤ min (95 / 100 : ℚ) (lp.confidence * ensembleWeightLinear +
        np.confidence * ensembleWeightNeural + rp.confidence * ensembleWeightForest)
      exact le_min (by norm_num) (by linarith)
    · show min (95 / 100 : ℚ) (lp.confidence * ensembleWeightLinear +
        np.confidence * ensembleWeightNeural + rp.confidence * ensembleWeightForest) ≤ 1
      exact le_trans (min_le_left _ _) (by norm_num)
  · -- enhanced neural and enhanced ensemble
    intro features dRaw fRaw hne
    have hlen : (0 : ℚ) < (features.length : ℚ) := by
      have : 0 < features.length := List.length_pos.mpr hne
      exact_mod_cast this
    have hfrac0 : (0 : ℚ) ≤
        ((features.filter (fun x => decide (0 < x))).length : ℚ) / (features.length : ℚ) :=
      div_nonneg (by positivity) (le_of_lt hlen)
    have hfrac1 :
        ((features.filter (fun x => decide (0 < x))).length : ℚ) / (features.length : ℚ) ≤ 1 := by
      rw [div_le_one hlen]
      exact_mod_cast List.length_filter_le _ features
    have hconf0 : (0 : ℚ) ≤ (enhancedNeuralPredictPost features dRaw fRaw).confidence := by
      simp only [enhancedNeuralPredictPost]
      apply le_min (by norm_num)
      nlinarith
    have hconf1 : (enhancedNeuralPredictPost features dRaw fRaw).confidence ≤ 1 := by
      simp only [enhancedNeuralPredictPost]
      exact le_trans (min_le_left _ _) (by norm_num)
    have hunc0 : (0 : ℚ) ≤ (enhancedNeuralPredictPost features dRaw fRaw).uncertainty := by
      simp only [enhancedNeuralPredictPost, calculateUncertainty]
      exact le_min (by norm_num) (by positivity)
    have hunc1 : (enhancedNeuralPredictPost features dRaw fRaw).uncertainty ≤ 1 := by
      simp only [enhancedNeuralPredictPost, calculateUncertainty]
      exact min_le_left _ _
    refine ⟨⟨clamp01_nonneg _, clamp01_le_one _⟩, ⟨clamp01_nonneg _, clamp01_le_one _⟩,
      ⟨hconf0, hconf1⟩, ⟨hunc0, hunc1⟩, ⟨?_, ?_⟩, ⟨?_, ?_⟩⟩
    · show 0 ≤ (enhancedNeuralPredictPost features dRaw fRaw).confidence * (95 / 100)
      nlinarith
    · show (enhancedNeuralPredictPost features dRaw fRaw).confidence * (95 / 100) ≤ 1
      nlinarith
    · show 0 ≤ (enhancedNeuralPredictPost features dRaw fRaw).uncertainty * (11 / 10)
      nlinarith
    · show (enhancedNeuralPredictPost features dRaw fRaw).uncertainty * (11 / 10) ≤ 11 / 10
      nlinarith
  · -- large spread forces ensemble uncertainty above 1
    intro features dRaw fRaw hspread
    have hsp : (1 : ℚ) / 2 ≤ |clamp01 dRaw - clamp01 fRaw| := hspread
    have h2 : (1 : ℚ) ≤ |clamp01 dRaw - clamp01 fRaw| * 2 := by linarith
    show 1 < calculateUncertainty (clamp01 dRaw) (clamp01 fRaw) * (11 / 10)
    unfold calculateUncertainty
    rw [min_eq_left h2]
    norm_num

/-- Witness for C6's amended bounds: the random-forest conjunct at a
one-leaf forest, the enhanced conjunct at a one-feature vector, and the
spread conjunct at raw outputs 1 and 0. -/
theorem model_prediction_bounds_witness :
    (([RTree.leaf (1 / 2) (1 / 2)] : List RTree) ≠ [] ∧
      0 ≤ (randomForestPredict (fun _ => 0) [RTree.leaf (1 / 2) (1 / 2)] [1]).confidence) ∧
    (([1] : List ℚ) ≠ [] ∧
      0 ≤ (enhancedNeuralPredictPost [1] (1 / 2) (1 / 2)).droughtRisk) ∧
    ((1 : ℚ) / 2 ≤ |(enhancedNeuralPredictPost [1] 1 0).droughtRisk -
        (enhancedNeuralPredictPost [1] 1 0).floodRisk| ∧
      1 < (enhancedEnsemblePredictPost [1] 1 0).uncertainty) := by
  refine ⟨⟨?_, ?_⟩, ⟨?_, ?_⟩, ⟨?_, ?_⟩⟩
  · simp
  · exact (model_prediction_bounds.2.1 (fun _ => 0) [RTree.leaf (1 / 2) (1 / 2)] [1]
      (by simp)
      (by
        intro t ht
        rw [List.mem_singleton] at ht
        subst ht
        exact ⟨by norm_num, by norm_num, by norm_num, by norm_num⟩)
      (by
        intro x hx0 hx2
        norm_num)).2.2.1
  · simp
  · exact (model_prediction_bounds.2.2.2.1 [1] (1 / 2) (1 / 2) (by simp)).1.1
  · norm_num [enhancedNeuralPredictPost, clamp01]
  · exact model_prediction_bounds.2.2.2.2 [1] 1 0
      (by norm_num [enhancedNeuralPredictPost, clamp01])

/-! ### C10: the geographic adjustment is a frame over the level slots -/

lemma desertApply_length (b : List ℚ) (lat lon : ℚ) :
    (desertApply b lat lon).length = b.length := by
  unfold desertApply
  split_ifs <;> simp [desertAdjust]

lemma polarApply_length (b : List ℚ) (lat lon : ℚ) :
    (polarApply b lat lon).length = b.length := by
  unfold polarApply
  split_ifs <;> simp [polarAdjust]

lemma coastalApply_length (b : List ℚ) (lat lon : ℚ) :
    (coastalApply b lat lon).length = b.length := by
  unfold coastalApply
  split_ifs <;> simp [coastalAdjust]

lemma tropicalApply_length (b : List ℚ) (lat lon : ℚ) :
    (tropicalApply b lat lon).length = b.length := by
  unfold tropicalApply
  split_ifs <;> simp [tropicalAdjust]

lemma mountainousApply_length (b : List ℚ) (lat lon : ℚ) :
    (mountainousApply b lat lon).length = b.length := by
  unfold mountainousApply
  split_ifs <;> simp [mountainousAdjust]

lemma adjustBasicFeaturesEnhanced_length (b : List ℚ) (lat lon : ℚ) :
    (adjustBasicFeaturesEnhanced b lat lon).length = b.length := by
  unfold adjustBasicFeaturesEnhanced
  rw [mountainousApply_length, tropicalApply_length, coastalApply_length,
    polarApply_length, desertApply_length]

/-- C10: the enhanced geographic adjustment returns the trend, volatility,
interaction, seasonal and extreme groups unchanged, and on a well-formed
record (5 basic slots, `allFeatures` the concatenation of the groups) the
rebuilt `allFeatures` agrees with the input beyond index 4. -/
theorem adjust_modifies_only_level_slots : ∀ (f : EnhancedProcessedFeatures) (lat lon : ℚ),
    (adjustForGeographicContextEnhanced f lat lon).temporalFeatures = f.temporalFeatures ∧
    (adjustForGeographicContextEnhanced f lat lon).volatilityFeatures = f.volatilityFeatures ∧
    (adjustForGeographicContextEnhanced f lat lon).interactionFeatures =
      f.interactionFeatures ∧
    (adjustForGeographicContextEnhanced f lat lon).seasonalFeatures = f.seasonalFeatures ∧
    (adjustForGeographicContextEnhanced f lat lon).extremeFeatures = f.extremeFeatures ∧
    (f.basicFeatures.length = 5 →
      f.allFeatures = f.basicFeatures ++ f.temporalFeatures ++ f.volatilityFeatures ++
        f.interactionFeatures ++ f.seasonalFeatures ++ f.extremeFeatures →
      (adjustForGeographicContextEnhanced f lat lon).allFeatures.drop 5 =
        f.allFeatures.drop 5) := by
  intro f lat lon
  refine ⟨rfl, rfl, rfl, rfl, rfl, ?_⟩
  intro h5 hall
  have key : ∀ X : List ℚ, X.length = 5 →
      (X ++ f.temporalFeatures ++ f.volatilityFeatures ++ f.interactionFeatures ++
        f.seasonalFeatures ++ f.extremeFeatures).drop 5 =
      f.temporalFeatures ++ (f.volatilityFeatures ++ (f.interactionFeatures ++
        (f.seasonalFeatures ++ f.extremeFeatures))) := by
    intro X hX
    rw [List.append_assoc, List.append_assoc, List.append_assoc, List.append_assoc,
      ← hX, List.drop_left]
  have hlen : (adjustBasicFeaturesEnhanced f.basicFeatures lat lon).length = 5 := by
    rw [adjustBasicFeaturesEnhanced_length, h5]
  show (adjustBasicFeaturesEnhanced f.basicFeatures lat lon ++ f.temporalFeatures ++
      f.volatilityFeatures ++ f.interactionFeatures ++ f.seasonalFeatures ++
      f.extremeFeatures).drop 5 = f.allFeatures.drop 5
  rw [hall, key _ hlen, key _ h5]

/-- A well-formed 25-slot feature record used to witness the frame theorem. -/
def witnessFeatures : EnhancedProcessedFeatures :=
  { basicFeatures := [1, 2, 3, 4, 5]
    temporalFeatures := [6, 7, 8, 9, 10]
    volatilityFeatures := [11, 12, 13, 14, 15]
    interactionFeatures := [16, 17, 18, 19]
    seasonalFeatures := [20, 21, 22]
    extremeFeatures := [23, 24, 25]
    allFeatures := [1, 2, 3, 4, 5] ++ [6, 7, 8, 9, 10] ++ [11, 12, 13, 14, 15] ++
      [16, 17, 18, 19] ++ [20, 21, 22] ++ [23, 24, 25]
    quality := some 1
    completeness := 1
    dataRichness := 1 }

/-- Witness for C10 at a concrete record and a Sahara coordinate. -/
theorem adjust_modifies_only_level_slots_witness :
    witnessFeatures.basicFeatures.length = 5 ∧
    (adjustForGeographicContextEnhanced witnessFeatures 20 10).allFeatures.drop 5 =
      witnessFeatures.allFeatures.drop 5 :=
  ⟨by decide,
    (adjust_modifies_only_level_slots witnessFeatures 20 10).2.2.2.2.2 (by decide) (by decide)⟩

/-! ### C1: desert adjustment through the enhanced pipeline -/

lemma desert_not_polar {lat lon : ℚ} (h : isDesertRegion lat lon) :
    ¬ isPolarRegion lat lon := by
  intro hp
  simp only [isDesertRegion] at h
  simp only [isPolarRegion] at hp
  rcases hp with hp | hp <;>
    rcases h with ⟨h1, h2, h3, h4⟩ | ⟨h1, h2, h3, h4⟩ | ⟨h1, h2, h3, h4⟩ |
      ⟨h1, h2, h3, h4⟩ | ⟨h1, h2, h3, h4⟩ <;> linarith

lemma desertAdjust_five (a0 a1 a2 a3 a4 : ℚ) :
    desertAdjust [a0, a1, a2, a3, a4] =
      [min a0 (15 / 100), max a1 (25 / 100), max a2 (6 / 10), 0, 0] := rfl

lemma polarAdjust_five (a0 a1 a2 a3 a4 : ℚ) :
    polarAdjust [a0, a1, a2, a3, a4] =
      [min a0 (4 / 10), min a1 (15 / 100), min a2 (3 / 10), 0, max a4 (5 / 100)] := rfl

lemma coastalAdjust_five (a0 a1 a2 a3 a4 : ℚ) :
    coastalAdjust [a0, a1, a2, a3, a4] = [a0, a1, a2, max a3 (5 / 100), a4] := rfl

lemma tropicalAdjust_five (a0 a1 a2 a3 a4 : ℚ) :
    tropicalAdjust [a0, a1, a2, a3, a4] =
      [max a0 (6 / 10), max a1 (2 / 10), min a2 (6 / 10), a3, a4] := rfl

lemma mountainousAdjust_five (a0 a1 a2 a3 a4 : ℚ) :
    mountainousAdjust [a0, a1, a2, a3, a4] =
      [a0, min a1 (3 / 10), a2, a3, max a4 (2 / 100)] := rfl

lemma adjustBasic_desert_bounds (lat lon x0 x1 x2 x3 x4 : ℚ)
    (hd : isDesertRegion lat lon) :
    ∃ y0 y1 y2 y3 y4,
      adjustBasicFeaturesEnhanced [x0, x1, x2, x3, x4] lat lon = [y0, y1, y2, y3, y4] ∧
      y0 ≤ 6 / 10 ∧ 25 / 100 ≤ y1 ∧ 6 / 10 ≤ y2 ∧
      (¬ isCoastalRegion lat lon → y3 = 0) ∧
      (¬ isMountainousRegion lat lon → y4 = 0) := by
  have hp : ¬ isPolarRegion lat lon := desert_not_polar hd
  unfold adjustBasicFeaturesEnhanced desertApply polarApply coastalApply tropicalApply
    mountainousApply
  rw [if_pos hd, if_neg hp]
  by_cases hc : isCoastalRegion lat lon <;>
    by_cases ht : isTropicalRegion lat lon <;>
      by_cases hm : isMountainousRegion lat lon <;>
        (first | rw [if_pos hc] | rw [if_neg hc]) <;>
        (first | rw [if_pos ht] | rw [if_neg ht]) <;>
        (first | rw [if_pos hm] | rw [if_neg hm]) <;>
        simp only [desertAdjust_five, coastalAdjust_five, tropicalAdjust_five,
          mountainousAdjust_five] <;>
        refine ⟨_, _, _, _, _, rfl, ?_, ?_, ?_, ?_, ?_⟩ <;>
        first
          | (intro hcon; exact absurd hc hcon)
          | (intro hcon; exact absurd hm hcon)
          | (intro hcon; rfl)
          | (simp only [le_min_iff, le_max_iff, min_le_iff, max_le_iff]; norm_num)

lemma normalizeGroup_five (a0 a1 a2 a3 a4 : ℚ) (r0 r1 r2 r3 r4 : ℚ × ℚ) :
    normalizeGroup [a0, a1, a2, a3, a4] [r0, r1, r2, r3, r4] =
      [normalizeRange r0 a0, normalizeRange r1 a1, normalizeRange r2 a2,
        normalizeRange r3 a3, normalizeRange r4 a4] := rfl

/-- C1 (amended): at a desert coordinate the enhanced pipeline's clamps act on
the raw feature scale before normalization, so on the normalized [0,1] output
the soil-moisture slot is ≤ 0.15 (in fact ≤ 0.006), the temperature slot
is ≥ 0.25, the fire-index slot is only ≥ 0.006 (not ≥ 0.6), the sea-level
slot is 0 unless the coordinate is also coastal, and the glacier-melt slot is
0 unless the coordinate is also mountainous — whatever the raw samples. -/
theorem desert_normalized_guarantees :
    ∀ (sqrtQ : ℚ → ℚ) (nowYear : Int) (sm t fi sl gm : List RawSample) (lat lon : ℚ),
    isDesertRegion lat lon →
    ((processDataForEnhancedML sqrtQ nowYear sm t fi sl gm lat lon).features.getD 0 0 ≤
      15 / 100) ∧
    (25 / 100 ≤
      (processDataForEnhancedML sqrtQ nowYear sm t fi sl gm lat lon).features.getD 1 0) ∧
    (3 / 500 ≤
      (processDataForEnhancedML sqrtQ nowYear sm t fi sl gm lat lon).features.getD 2 0) ∧
    (¬ isCoastalRegion lat lon →
      (processDataForEnhancedML sqrtQ nowYear sm t fi sl gm lat lon).features.getD 3 0 = 0) ∧
    (¬ isMountainousRegion lat lon →
      (processDataForEnhancedML sqrtQ nowYear sm t fi sl gm lat lon).features.getD 4 0 = 0) := by
  intro sqrtQ nowYear sm t fi sl gm lat lon hd
  obtain ⟨y0, y1, y2, y3, y4, heq, hy0, hy1, hy2, hy3, hy4⟩ :=
    adjustBasic_desert_bounds lat lon
      (calculateMean ((cleanAndValidateData nowYear sm).cleanSamples.map (fun s => s.value)))
      (calculateMean ((cleanAndValidateData nowYear t).cleanSamples.map (fun s => s.value)))
      (calculateMean ((cleanAndValidateData nowYear fi).cleanSamples.map (fun s => s.value)))
      (calculateMean ((cleanAndValidateData nowYear sl).cleanSamples.map (fun s => s.value)))
      (calculateMean ((cleanAndValidateData nowYear gm).cleanSamples.map (fun s => s.value)))
      hd
  have hfeat : (processDataForEnhancedML sqrtQ nowYear sm t fi sl gm lat lon).features =
      normalizeGroup (adjustBasicFeaturesEnhanced
        [calculateMean ((cleanAndValidateData nowYear sm).cleanSamples.map (fun s => s.value)),
          calculateMean ((cleanAndValidateData nowYear t).cleanSamples.map (fun s => s.value)),
          calculateMean ((cleanAndValidateData nowYear fi).cleanSamples.map (fun s => s.value)),
          calculateMean ((cleanAndValidateData nowYear sl).cleanSamples.map (fun s => s.value)),
          calculateMean ((cleanAndValidateData nowYear gm).cleanSamples.map (fun s => s.value))]
        lat lon) basicRanges ++
      normalizeGroup
        (aggregateDataWithTimeSeries sqrtQ nowYear sm t fi sl gm).temporalFeatures
        trendRanges ++
      normalizeGroup
        (aggregateDataWithTimeSeries sqrtQ nowYear sm t fi sl gm).volatilityFeatures
        volatilityRanges ++
      normalizeGroup
        (aggregateDataWithTimeSeries sqrtQ nowYear sm t fi sl gm).interactionFeatures
        interactionRanges ++
      normalizeGroup
        (aggregateDataWithTimeSeries sqrtQ nowYear sm t fi sl gm).seasonalFeatures
        seasonalRanges ++
      normalizeGroup
        (aggregateDataWithTimeSeries sqrtQ nowYear sm t fi sl gm).extremeFeatures
        extremeRanges := rfl
  rw [heq] at hfeat
  have hbr : (basicRanges : List (ℚ × ℚ)) =
      [(0, 100), (-50, 60), (0, 100), (0, 1), (0, 20)] := rfl
  rw [hbr, normalizeGroup_five] at hfeat
  refine ⟨?_, ?_, ?_, ?_, ?_⟩
  · rw [hfeat]
    show normalizeRange (0, 100) y0 ≤ 15 / 100
    unfold normalizeRange
    refine clamp01_le ?_ (by norm_num)
    rw [div_le_iff₀ (by norm_num : (0 : ℚ) < 100 - 0)]
    linarith
  · rw [hfeat]
    show 25 / 100 ≤ normalizeRange (-50, 60) y1
    unfold normalizeRange
    refine le_clamp01 ?_ (by norm_num)
    rw [le_div_iff₀ (by norm_num : (0 : ℚ) < 60 - (-50))]
    linarith
  · rw [hfeat]
    show 3 / 500 ≤ normalizeRange (0, 100) y2
    unfold normalizeRange
    refine le_clamp01 ?_ (by norm_num)
    rw [le_div_iff₀ (by norm_num : (0 : ℚ) < 100 - 0)]
    linarith
  · intro hcon
    rw [hfeat]
    show normalizeRange (0, 1) y3 = 0
    rw [hy3 hcon]
    norm_num [normalizeRange, clamp01]
  · intro hcon
    rw [hfeat]
    show normalizeRange (0, 20) y4 = 0
    rw [hy4 hcon]
    norm_num [normalizeRange, clamp01]

/-- Witness for C1's amended desert guarantees at the Sahara point (25, 0)
with empty signal arrays. -/
theorem desert_normalized_guarantees_witness :
    isDesertRegion 25 0 ∧
    (processDataForEnhancedML (fun _ => 0) 2025 [] [] [] [] [] 25 0).features.getD 0 0 ≤
      15 / 100 :=
  ⟨by norm_num [isDesertRegion],
    (desert_normalized_guarantees (fun _ => 0) 2025 [] [] [] [] [] 25 0
      (by norm_num [isDesertRegion])).1⟩

/-- Counterexample to C1 as stated: at the pure-desert point (25, 0) with
empty signal arrays the normalized fire-index slot is 0.006 < 0.6 (the clamp
`max(-, 0.6)` was applied on the raw 0-100 scale before normalization); at
the desert-and-coastal point (-25, 130) the sea-level slot is 0.05, not 0;
and at the desert-and-mountainous point (-20, -75) the glacier-melt slot is
0.001, not 0. -/
theorem desert_normalized_counterexample :
    isDesertRegion 25 0 ∧
    (processDataForEnhancedML (fun _ => 0) 2025 [] [] [] [] [] 25 0).features.getD 2 0 =
      3 / 500 ∧
    ¬ (6 / 10 : ℚ) ≤ 3 / 500 ∧
    isDesertRegion (-25) 130 ∧
    (processDataForEnhancedML (fun _ => 0) 2025 [] [] [] [] [] (-25) 130).features.getD 3 0 =
      1 / 20 ∧
    isDesertRegion (-20) (-75) ∧
    (processDataForEnhancedML (fun _ => 0) 2025 [] [] [] [] [] (-20) (-75)).features.getD 4 0 =
      1 / 1000 := by
  refine ⟨by norm_num [isDesertRegion], ?_, by norm_num, by norm_num [isDesertRegion], ?_,
    by norm_num [isDesertRegion], ?_⟩ <;>
    norm_num [processDataForEnhancedML, aggregateDataWithTimeSeries, cleanAndValidateData,
      createTemporalFeatures, calculateMean, calculateTrend, calculateVolatility,
      calculateSeasonality, calculateExtremeValues, adjustForGeographicContextEnhanced,
      adjustBasicFeaturesEnhanced, desertApply, polarApply, coastalApply, tropicalApply,
      mountainousApply, desertAdjust, polarAdjust, coastalAdjust, tropicalAdjust,
      mountainousAdjust, normalizeFeaturesEnhanced, normalizeGroup, normalizeRange,
      clamp01, basicRanges, trendRanges, volatilityRanges, interactionRanges,
      seasonalRanges, extremeRanges, isDesertRegion, isPolarRegion, isCoastalRegion,
      isTropicalRegion, isMountainousRegion, List.filter, jsAdd]

end EnvRisk
